import Mathlib

/-!
Verification of the request-validation and error-response contract of the
smooth-operators service (Flask backend: `src/app/utils.py`, `src/app/models.py`,
`src/routes/{customers,orders,products}.py`).

The embedding is shallow: request/response JSON scalar values become the
inductive `Value`, request bodies become association lists (`Record`), the
Python builtins used by the code (`int(...)`, `float(...)`, `str.strip`,
`str.lower`, truthiness) become explicit Lean functions, and each route
handler becomes a pure function from the mock store and the parsed body to a
response plus the new store.

Modelling notes (each is a deliberate restriction, marked where used):
* Python floats are IEEE doubles; they are modelled here by exact pairs
  `(num : Int, den : Nat)` with value `num / den`.  Every comparison the code
  performs on floats (`<= 0`) depends only on the sign of the exact decimal
  value, where IEEE rounding to the nearest double preserves the sign, so the
  exact model agrees with the code on every property stated below.
* Python string functions (`lower`, `strip`, regex classes) are modelled for
  ASCII payloads; the source regexes themselves are ASCII character classes.
* Wall-clock fields (`created_at` timestamps) are environment input, not
  program logic, and are omitted from the entity records.
-/

/-- Scalar JSON value as handled by the Flask handlers.  `floatV num den`
models the Python float whose exact decimal value is `num / den` (`den`
positive for every float the program constructs). -/
inductive Value where
  | str (s : String)
  | intV (n : Int)
  | floatV (num : Int) (den : Nat)
  | boolV (b : Bool)
  | null
deriving DecidableEq, Repr

/-- Python truthiness of a scalar value (`bool(v)`): empty string, zero
numbers, `False` and `None` are falsy. -/
def truthy : Value → Bool
  | .str s => s != ""
  | .intV n => n != 0
  | .floatV num _ => num != 0
  | .boolV b => b
  | .null => false

/-- Python comparison `v == 0` on a scalar: `0`, `0.0` and `False` compare
equal to `0`; strings and `None` do not. -/
def pyEqZero : Value → Bool
  | .intV n => n == 0
  | .floatV num _ => num == 0
  | .boolV b => !b
  | _ => false

/-- Whether the value is a Python `str` (`isinstance(v, str)`). -/
def isStr : Value → Bool
  | .str _ => true
  | _ => false

/-- ASCII uppercase letter test (`A`-`Z`). -/
def isAsciiUpper (c : Char) : Bool := 65 ≤ c.toNat && c.toNat ≤ 90

/-- ASCII lowercase letter test (`a`-`z`). -/
def isAsciiLower (c : Char) : Bool := 97 ≤ c.toNat && c.toNat ≤ 122

/-- ASCII letter test, the regex class `[a-zA-Z]`. -/
def isAsciiLetter (c : Char) : Bool := isAsciiUpper c || isAsciiLower c

/-- ASCII digit test, the regex class `[0-9]` (the source regexes use `\d`
only on ASCII payloads). -/
def isAsciiDigit (c : Char) : Bool := 48 ≤ c.toNat && c.toNat ≤ 57

/-- Whitespace as stripped by Python `str.strip()` (ASCII subset). -/
def isSpaceChar (c : Char) : Bool :=
  c == ' ' || c == '\t' || c == '\n' || c == '\x0d' || c == '\x0b' || c == '\x0c'

/-- Python `str.lower()` on one character (ASCII range; the uppercase letters
map down by 32, everything else is fixed). -/
def pyLowerChar (c : Char) : Char :=
  if 65 ≤ c.toNat ∧ c.toNat ≤ 90 then Char.ofNat (c.toNat + 32) else c

/-- Python `str.lower()` (ASCII model). -/
def pyLower (s : String) : String := ⟨s.data.map pyLowerChar⟩

/-- Python `str.strip()`: drop whitespace from both ends. -/
def pyStrip (s : String) : String :=
  ⟨((s.data.dropWhile isSpaceChar).reverse.dropWhile isSpaceChar).reverse⟩

/-- Numeric value of a list of ASCII digit characters. -/
def digitsVal (l : List Char) : Nat :=
  l.foldl (fun a c => a * 10 + (c.toNat - 48)) 0

/-- Python `int(s)` on a string: surrounding whitespace stripped, an optional
single sign, then a nonempty run of digits (digit-group underscores are not
modelled; no claim below involves them). -/
def pyIntString (s : String) : Option Int :=
  let t := ((s.data.dropWhile isSpaceChar).reverse.dropWhile isSpaceChar).reverse
  match t with
  | [] => none
  | c :: rest =>
    let sign : Int := if c == '-' then -1 else 1
    let ds := if c == '-' || c == '+' then rest else c :: rest
    if !ds.isEmpty && ds.all isAsciiDigit then some (sign * digitsVal ds) else none

/-- Python `float(s)` on a string, returned as an exact pair `(num, den)`:
optional sign, digits with an optional decimal point, at least one digit
(`inf`, `nan` and exponent forms are not modelled; no claim involves them). -/
def pyFloatString (s : String) : Option (Int × Nat) :=
  let t := ((s.data.dropWhile isSpaceChar).reverse.dropWhile isSpaceChar).reverse
  match t with
  | [] => none
  | c :: rest =>
    let sign : Int := if c == '-' then -1 else 1
    let ds := if c == '-' || c == '+' then rest else c :: rest
    match ds.splitOn '.' with
    | [whole] =>
        if !whole.isEmpty && whole.all isAsciiDigit then some (sign * digitsVal whole, 1)
        else none
    | [whole, frac] =>
        if (!whole.isEmpty || !frac.isEmpty) && whole.all isAsciiDigit && frac.all isAsciiDigit then
          some (sign * (digitsVal whole * 10 ^ frac.length + digitsVal frac), 10 ^ frac.length)
        else none
    | _ => none

/-- Python `int(v)` on a scalar: ints pass through, bools become 0/1, floats
truncate toward zero, strings parse, `None` raises (`none`). -/
def pyIntVal : Value → Option Int
  | .str s => pyIntString s
  | .intV n => some n
  | .floatV num den => some (num.tdiv den)
  | .boolV b => some (if b then 1 else 0)
  | .null => none

/-- Python `float(v)` on a scalar, as an exact `(num, den)` pair. -/
def pyFloatVal : Value → Option (Int × Nat)
  | .str s => pyFloatString s
  | .intV n => some (n, 1)
  | .floatV num den => some (num, den)
  | .boolV b => some (if b then 1 else 0, 1)
  | .null => none

/-- Split a character list at the first occurrence of `c`; `none` when `c`
does not occur. -/
def splitAtChar (c : Char) : List Char → Option (List Char × List Char)
  | [] => none
  | x :: xs =>
    if x == c then some ([], xs)
    else (splitAtChar c xs).map (fun p => (x :: p.1, p.2))

/-- Split a character list at the last occurrence of `c`; `none` when `c`
does not occur. -/
def splitAtLastChar (c : Char) : List Char → Option (List Char × List Char)
  | [] => none
  | x :: xs =>
    match splitAtLastChar c xs with
    | some p => some (x :: p.1, p.2)
    | none => if x == c then some ([], xs) else none

/-- Character class `[a-zA-Z0-9._%+-]` of the email local part. -/
def isLocalChar (c : Char) : Bool :=
  isAsciiLetter c || isAsciiDigit c || c == '.' || c == '_' || c == '%' || c == '+' || c == '-'

/-- Character class `[a-zA-Z0-9.-]` of the email domain part. -/
def isDomainChar (c : Char) : Bool :=
  isAsciiLetter c || isAsciiDigit c || c == '.' || c == '-'

/-- The shared email regex
`^[a-zA-Z0-9._%+-]+@[a-zA-Z0-9.-]+\.[a-zA-Z]{2,}$`
(`src/app/utils.py:37`, `src/routes/customers.py:70`, `src/routes/orders.py:88`).
The `@` splits at the first `@` (the local class excludes `@`), and because the
trailing `[a-zA-Z]{2,}` excludes dots, the only possible split of the domain is
at its last dot. -/
def emailMatch (s : String) : Bool :=
  match splitAtChar '@' s.data with
  | none => false
  | some (localPart, rest) =>
    !localPart.isEmpty && localPart.all isLocalChar &&
      match splitAtLastChar '.' rest with
      | none => false
      | some (dom, tld) =>
        !dom.isEmpty && dom.all isDomainChar && tld.length ≥ 2 && tld.all isAsciiLetter

/-- The phone regex `^\+?[1-9]\d{1,14}$` (`src/app/utils.py:48`,
`src/routes/customers.py:105`). -/
def phoneMatch (s : String) : Bool :=
  match s.data with
  | [] => false
  | c :: rest =>
    let ds := if c == '+' then rest else c :: rest
    match ds with
    | [] => false
    | d :: tl =>
      (49 ≤ d.toNat && d.toNat ≤ 57) && tl.all isAsciiDigit && (1 ≤ tl.length && tl.length ≤ 14)

/-- Separator removal applied before the operator phone regex:
`.replace(' ', '').replace('-', '').replace('(', '').replace(')', '').replace('.', '')`. -/
def stripPhoneSeps (s : String) : String :=
  ⟨s.data.filter (fun c => !(c == ' ' || c == '-' || c == '(' || c == ')' || c == '.'))⟩

/-- A request body or entity representation: an ordered string-keyed mapping
(Python dicts preserve insertion order; keys are unique in every dict the
program builds). -/
def Record := List (String × Value)
deriving DecidableEq, Repr

/-- Python `field in data`. -/
def hasKey (d : Record) (k : String) : Bool := (List.lookup k d).isSome

/-- Python `data[field]` (only meaningful when the key is present). -/
def getV (d : Record) (k : String) : Value := (List.lookup k d).getD .null

/-- Trims a single value as `sanitize_input` does: strings are stripped,
everything else passes through (`src/app/utils.py:73-77`). -/
def sanitizeValue : Value → Value
  | .str s => .str (pyStrip s)
  | v => v

/-- Embeds `sanitize_input` (`src/app/utils.py:69-79`) on the dict case: a
new record is built with every string value stripped. -/
def sanitize_input (d : Record) : Record :=
  d.map (fun kv => (kv.1, sanitizeValue kv.2))

/-- Name block of `validate_operator_data` (`src/app/utils.py:20-29`).  The
check `not data[name] or not isinstance(data[name], str)` fires for every
non-string value (falsy or not) and for the empty string. -/
def nameErrors (d : Record) (update : Bool) : List String :=
  if !update && !hasKey d "name" then ["name is required"]
  else
    match List.lookup "name" d with
    | none => []
    | some (.str s) =>
        if s == "" then ["name must be a non-empty string"]
        else if (pyStrip s).length == 0 then ["name cannot be empty or whitespace only"]
        else if (pyStrip s).length > 255 then ["name cannot exceed 255 characters"]
        else []
    | some _ => ["name must be a non-empty string"]

/-- Email block of `validate_operator_data` (`src/app/utils.py:31-40`). -/
def emailErrors (d : Record) (update : Bool) : List String :=
  match List.lookup "email" d with
  | some (.str s) =>
      if s == "" then ["email must be a non-empty string"]
      else if s.length > 320 then ["email cannot exceed 320 characters"]
      else if !emailMatch s then ["email format is invalid - must be a valid email address"]
      else []
  | some _ => ["email must be a non-empty string"]
  | none => if !update then ["email is required"] else []

/-- Phone block of `validate_operator_data` (`src/app/utils.py:42-49`); only
entered when the phone value is present and truthy. -/
def phoneErrors (d : Record) : List String :=
  match List.lookup "phone" d with
  | none => []
  | some v =>
    if !truthy v then []
    else
      match v with
      | .str s =>
          if s.length > 20 then ["phone number cannot exceed 20 characters"]
          else if !phoneMatch (stripPhoneSeps s) then
            ["phone format is invalid - must be a valid phone number with optional country code"]
          else []
      | _ => ["phone must be a string"]

/-- Comma-joined rendering used by the unexpected-fields message. -/
def joinComma : List String → String
  | [] => ""
  | [x] => x
  | x :: xs => x ++ ", " ++ joinComma xs

/-- Unexpected-field block of `validate_operator_data`
(`src/app/utils.py:51-55`): any key outside `{name, email, phone}` is an
error.  The Python message joins a hash-ordered set; the join order is
modelled as record order (no claim depends on it). -/
def unexpectedErrors (d : Record) : List String :=
  let ks := ((d.map Prod.fst).dedup).filter
    (fun k => !(k == "name" || k == "email" || k == "phone"))
  if ks.isEmpty then [] else ["unexpected fields: " ++ joinComma ks]

/-- Embeds `validate_operator_data` (`src/app/utils.py:16-57`): the Python
function appends the four blocks to one `errors` list in this order and
returns it. -/
def validate_operator_data (d : Record) (update : Bool) : List String :=
  nameErrors d update ++ emailErrors d update ++ phoneErrors d ++ unexpectedErrors d

/-- Structured error body produced by `create_error_response`
(`src/app/utils.py:148-158`); `none` fields are absent from the JSON body. -/
structure ErrorBody where
  error : String
  hint : Option String
  details : Option Value
deriving DecidableEq, Repr

/-- Embeds `create_error_response` (`src/app/utils.py:148-158`).  `debug` is
the truthiness of `os.getenv(DEBUG)`; `if hint:` and `if details and ...:`
are Python truthiness tests, so an empty-string hint or falsy details value
is dropped. -/
def create_error_response (message : String) (status : Nat) (hint : Option String)
    (details : Option Value) (debug : Bool) : ErrorBody × Nat :=
  ({ error := message
     hint := match hint with
             | some h => if h != "" then some h else none
             | none => none
     details := match details with
                | some dt => if truthy dt && debug then some dt else none
                | none => none },
   status)

/-- Result of verifying a bearer token (`jwt.decode` at
`src/app/utils.py:122`): the token is expired, otherwise invalid, or yields a
decoded claims dictionary.  Signature verification itself is the external
collaborator, so it is a parameter of the auth gate. -/
inductive VerifyResult where
  | expired
  | invalid
  | payload (claims : Record)
deriving DecidableEq, Repr

/-- Outcome of the auth gate, spec §3 `AuthOutcome`. -/
inductive AuthOutcome where
  | missingHeader
  | malformedHeader
  | emptyToken
  | expired
  | invalid
  | missingSubjectClaim
  | authenticated (userId : Value)
deriving DecidableEq, Repr

/-- Embeds the decorated function of `require_auth` (`src/app/utils.py:81-146`)
up to its rejection reason.  `auth_header.split(" ", 1)[1]` is everything
after the first space; the `except IndexError` branch (no space at all) is
unreachable once the `Bearer ` prefix check has passed, and like the prefix
check it reports a malformed header with status 401.  The `user_id` claim is
rejected when absent or falsy (`if not user_id`). -/
def require_auth (header : Option String) (verify : String → VerifyResult) : AuthOutcome :=
  match header with
  | none => .missingHeader
  | some h =>
    if !("Bearer ".data.isPrefixOf h.data) then .malformedHeader
    else
      match splitAtChar ' ' h.data with
      | none => .malformedHeader
      | some p =>
        let token : String := ⟨p.2⟩
        if token == "" then .emptyToken
        else
          match verify token with
          | .expired => .expired
          | .invalid => .invalid
          | .payload claims =>
            match List.lookup "user_id" claims with
            | none => .missingSubjectClaim
            | some u => if truthy u then .authenticated u else .missingSubjectClaim

/-- Outcome of a route handler: an error response (HTTP status plus the
body's `code` discriminator) or the successful payload. -/
inductive HResult (α : Type) where
  | err (status : Nat) (code : String)
  | ok (val : α)
deriving DecidableEq, Repr

/-- HTTP status of a handler outcome (successes in this file are 200/201
route-specific; only error statuses are compared below). -/
def HResult.statusOf : HResult α → Option Nat
  | .err s _ => some s
  | .ok _ => none

/-- An order of the orders mock store (`src/routes/orders.py:10-13`).  The
`created_at` wall-clock field carries no program logic and is omitted. -/
structure Order where
  id : Int
  product_id : String
  quantity : Int
  customer_email : String
  status : String
deriving DecidableEq, Repr

/-- The initial orders mock database (`src/routes/orders.py:10-13`). -/
def orders_db_init : List Order :=
  [⟨1, "PRD-001", 2, "john@example.com", "pending"⟩,
   ⟨2, "PRD-002", 1, "jane@example.com", "completed"⟩]

/-- Required fields of `create_order` (`src/routes/orders.py:42`). -/
def orderRequired : List String := ["product_id", "quantity", "customer_email"]

/-- Fields reported missing-or-empty by `create_order`
(`if field not in data or not data[field]`, `src/routes/orders.py:43-45`). -/
def orderMissing (d : Record) : List String :=
  orderRequired.filter (fun f => !hasKey d f || !truthy (getV d f))

/-- The order built by a successful `create_order`
(`src/routes/orders.py:99-106`). -/
def newOrder (db : List Order) (ps : String) (q : Int) (es : String) : Order :=
  { id := (db.length : Int) + 1, product_id := ps, quantity := q,
    customer_email := es, status := "pending" }

/-- Embeds `create_order` (`src/routes/orders.py:28-109`) after the auth
decorator: body → (response, new store).  An absent JSON body and an empty
dict both fail the `if not data` test and are modelled as the empty record.
A non-string `customer_email` reaches `re.match` and raises an uncaught
`TypeError`, which Flask turns into a 500. -/
def create_order (db : List Order) (d : Record) : HResult Order × List Order :=
  if d.isEmpty then (.err 400 "MISSING_REQUEST_BODY", db)
  else if !(orderMissing d).isEmpty then (.err 400 "MISSING_REQUIRED_FIELDS", db)
  else
    match getV d "product_id" with
    | .str ps =>
      if !("PRD-".data.isPrefixOf ps.data) then (.err 400 "INVALID_PRODUCT_ID_FORMAT", db)
      else
        match pyIntVal (getV d "quantity") with
        | none => (.err 400 "INVALID_QUANTITY_TYPE", db)
        | some q =>
          if q ≤ 0 then (.err 422 "INVALID_QUANTITY_VALUE", db)
          else
            match getV d "customer_email" with
            | .str es =>
              if !emailMatch es then (.err 400 "INVALID_EMAIL_FORMAT", db)
              else (.ok (newOrder db ps q es), db ++ [newOrder db ps q es])
            | _ => (.err 500 "UNHANDLED_TYPE_ERROR", db)
    | _ => (.err 400 "INVALID_PRODUCT_ID_FORMAT", db)

/-- Embeds `delete_order` (`src/routes/orders.py:165-189`): the first order
with the requested id is found; a non-`pending` status is a 403 and the store
is untouched; otherwise `orders_db.remove(order)` drops that element. -/
def delete_order (db : List Order) (oid : Int) : HResult String × List Order :=
  match db.find? (fun o => o.id == oid) with
  | none => (.err 404 "ORDER_NOT_FOUND", db)
  | some o =>
    if o.status != "pending" then (.err 403 "ORDER_DELETION_FORBIDDEN", db)
    else (.ok "Order deleted successfully", db.erase o)

/-- Python slice `l[start:stop]` for the non-negative bounds produced by
`list_orders` (`offset >= 0`, `stop = offset + limit >= offset`). -/
def pySlice (l : List α) (start stop : Int) : List α :=
  (l.drop start.toNat).take (stop.toNat - start.toNat)

/-- Parsing of one pagination parameter, `int(request.args.get(name, dflt))`:
an absent parameter defaults to the integer `dflt` (on which `int` is the
identity), a present one arrives as a string and is parsed. -/
def parsedParam (dflt : Int) : Option String → Option Int
  | none => some dflt
  | some s => pyIntString s

/-- Embeds `list_orders` (`src/routes/orders.py:191-234`). -/
def list_orders (db : List Order) (limitParam offsetParam : Option String) :
    HResult (List Order × Nat) :=
  match parsedParam 10 limitParam, parsedParam 0 offsetParam with
  | some limit, some offset =>
    if limit ≤ 0 then .err 400 "INVALID_LIMIT_VALUE"
    else if offset < 0 then .err 400 "INVALID_OFFSET_VALUE"
    else .ok (pySlice db offset (offset + limit), db.length)
  | _, _ => .err 400 "INVALID_PAGINATION_PARAMS"

/-- The `token_required` decorator of the mock blueprints
(`src/routes/orders.py:15-26`): any present `Authorization` header passes. -/
def token_required (header : Option String) (run : Unit → HResult α × σ) (db : σ) :
    HResult α × σ :=
  match header with
  | none => (.err 401 "MISSING_AUTH_TOKEN", db)
  | some _ => run ()

/-- `POST /orders` including its `token_required` decorator. -/
def create_order_route (header : Option String) (db : List Order) (d : Record) :
    HResult Order × List Order :=
  token_required header (fun _ => create_order db d) db

/-- `DELETE /orders/{id}` including its `token_required` decorator. -/
def delete_order_route (header : Option String) (db : List Order) (oid : Int) :
    HResult String × List Order :=
  token_required header (fun _ => delete_order db oid) db

/-- Zero-padded rendering `f"{n:03d}"` used for generated ids
(`src/routes/products.py:117`, `src/routes/customers.py:123`). -/
def pad3 (n : Nat) : String :=
  if n < 10 then "00" ++ toString n
  else if n < 100 then "0" ++ toString n
  else toString n

/-- A product of the products mock store (`src/routes/products.py:8-11`).
`price` is the exact `(num, den)` value of the stored Python float. -/
structure Product where
  id : String
  name : Value
  price : Int × Nat
  category : Value
  stock : Int
  description : Value
deriving DecidableEq, Repr

/-- Required fields of `create_product` (`src/routes/products.py:38`). -/
def productRequired : List String := ["name", "price", "category", "stock"]

/-- Fields reported missing by `create_product` on a record. -/
def productMissing (d : Record) : List String :=
  productRequired.filter (fun f => !hasKey d f)

/-- Fields reported empty by `create_product`: present but falsy and not
`== 0` (`not data[field] and data[field] != 0`, `src/routes/products.py:45`). -/
def productEmpty (d : Record) : List String :=
  productRequired.filter (fun f => hasKey d f && !truthy (getV d f) && !pyEqZero (getV d f))

/-- The product built by a successful `create_product`
(`src/routes/products.py:116-126`). -/
def newProduct (db : List Product) (d : Record) (p : Int × Nat) (st : Int) : Product :=
  { id := "PRD-" ++ pad3 (db.length + 1), name := getV d "name", price := p,
    category := getV d "category", stock := st,
    description := (List.lookup "description" d).getD (.str "") }

/-- Embeds `create_product` (`src/routes/products.py:25-129`) after its auth
decorator.  Price is validated before stock; each failing check returns at
once, so a later failing field is never reported. -/
def create_product (db : List Product) (d : Record) : HResult Product × List Product :=
  if d.isEmpty then (.err 400 "MISSING_REQUEST_BODY", db)
  else if !(productMissing d).isEmpty || !(productEmpty d).isEmpty then
    (.err 400 "REQUIRED_FIELD_VALIDATION_FAILED", db)
  else
    match pyFloatVal (getV d "price") with
    | none => (.err 400 "INVALID_PRICE_TYPE", db)
    | some p =>
      if p.1 ≤ 0 then (.err 422 "INVALID_PRICE_VALUE", db)
      else
        match pyIntVal (getV d "stock") with
        | none => (.err 400 "INVALID_STOCK_TYPE", db)
        | some st =>
          if st < 0 then (.err 422 "INVALID_STOCK_VALUE", db)
          else (.ok (newProduct db d p st), db ++ [newProduct db d p st])

/-- A customer of the customers mock store (`src/routes/customers.py:8-11`).
Accepted creates store `name.strip()`, `email.lower()` and the phone string,
so all three fields are strings. -/
structure Customer where
  id : String
  name : String
  email : String
  phone : String
deriving DecidableEq, Repr

/-- The Python conversion `str(v)` as far as the handlers observe it: the
handlers only test whether `str(v).strip()` is empty, and for every non-string
scalar the rendering is a nonempty token with no surrounding whitespace, which
is what this model guarantees. -/
def pyStrOf : Value → String
  | .str s => s
  | .intV n => toString n
  | .floatV num den => toString num ++ "/" ++ toString den
  | .boolV b => if b then "True" else "False"
  | .null => "None"

/-- Required fields of `create_customer` (`src/routes/customers.py:38`). -/
def customerRequired : List String := ["name", "email", "phone"]

/-- Fields reported empty by `create_customer`: present but falsy, or blank
after `str(...)` (`not data[field] or not str(data[field]).strip()`,
`src/routes/customers.py:45`). -/
def customerEmpty (d : Record) : List String :=
  customerRequired.filter (fun f =>
    hasKey d f && (!truthy (getV d f) || pyStrip (pyStrOf (getV d f)) == ""))

/-- Fields reported missing by `create_customer`. -/
def customerMissing (d : Record) : List String :=
  customerRequired.filter (fun f => !hasKey d f)

/-- The customer built by a successful `create_customer`
(`src/routes/customers.py:122-130`): stripped name, lowercased email. -/
def newCustomer (db : List Customer) (ns es phs : String) : Customer :=
  { id := "CUST-" ++ pad3 (db.length + 1), name := pyStrip ns,
    email := pyLower es, phone := phs }

/-- Embeds `create_customer` (`src/routes/customers.py:25-133`) after its
auth decorator.  The duplicate-email check compares lowercased emails; the
accepted record stores the lowercased email.  A non-string email or phone
reaches `re.match` and raises (500); a non-string name reaches `.strip()`
while the new record is built and raises (500). -/
def create_customer (db : List Customer) (d : Record) : HResult Customer × List Customer :=
  if d.isEmpty then (.err 400 "MISSING_REQUEST_BODY", db)
  else if !(customerMissing d).isEmpty || !(customerEmpty d).isEmpty then
    (.err 400 "REQUIRED_FIELD_VALIDATION_FAILED", db)
  else
    match getV d "email" with
    | .str es =>
      if !emailMatch es then (.err 400 "INVALID_EMAIL_FORMAT", db)
      else if (db.find? (fun c => pyLower c.email == pyLower es)).isSome then
        (.err 409 "EMAIL_ALREADY_EXISTS", db)
      else
        match getV d "phone" with
        | .str phs =>
          if !phoneMatch phs then (.err 400 "INVALID_PHONE_FORMAT", db)
          else
            match getV d "name" with
            | .str ns =>
              (.ok (newCustomer db ns es phs), db ++ [newCustomer db ns es phs])
            | _ => (.err 500 "UNHANDLED_TYPE_ERROR", db)
        | _ => (.err 500 "UNHANDLED_TYPE_ERROR", db)
    | _ => (.err 500 "UNHANDLED_TYPE_ERROR", db)

/-- Replace the first customer with the given id (mutating the object found
by `next(...)` mutates exactly that list element). -/
def replaceById (cid : String) (c : Customer) : List Customer → List Customer
  | [] => []
  | x :: xs => if x.id == cid then c :: xs else x :: replaceById cid c xs

/-- Email block of `update_customer` (`src/routes/customers.py:164-202`): a
falsy email is rejected before `.strip()` runs, a truthy non-string email
reaches `.strip()` and raises (500), the duplicate check compares lowercased
emails excluding the customer itself, and success stores the lowercased
email in place. -/
def update_email_block (db : List Customer) (cid : String) (d : Record) (c0 : Customer) :
    HResult Unit × Customer × List Customer :=
  match List.lookup "email" d with
  | none => (.ok (), c0, db)
  | some v =>
    if !truthy v then (.err 400 "INVALID_EMAIL_UPDATE_VALUE", c0, db)
    else
      match v with
      | .str s =>
        if pyStrip s == "" then (.err 400 "INVALID_EMAIL_UPDATE_VALUE", c0, db)
        else if !emailMatch s then (.err 400 "INVALID_EMAIL_UPDATE_FORMAT", c0, db)
        else if (db.find? (fun c => pyLower c.email == pyLower s && c.id != cid)).isSome then
          (.err 409 "EMAIL_ALREADY_EXISTS_UPDATE", c0, db)
        else
          ((.ok ()), { c0 with email := pyLower s },
            replaceById cid { c0 with email := pyLower s } db)
      | _ => (.err 500 "UNHANDLED_TYPE_ERROR", c0, db)

/-- Phone block of `update_customer` (`src/routes/customers.py:204-225`):
the emptiness test goes through `str(...)` but the regex gets the raw value,
which raises on a truthy non-string (500). -/
def update_phone_block (db1 : List Customer) (cid : String) (d : Record) (c1 : Customer) :
    HResult Unit × Customer × List Customer :=
  match List.lookup "phone" d with
  | none => (.ok (), c1, db1)
  | some v =>
    if !truthy v || pyStrip (pyStrOf v) == "" then
      (.err 400 "INVALID_PHONE_UPDATE_VALUE", c1, db1)
    else
      match v with
      | .str s =>
        if !phoneMatch s then (.err 400 "INVALID_PHONE_UPDATE_FORMAT", c1, db1)
        else ((.ok ()), { c1 with phone := s }, replaceById cid { c1 with phone := s } db1)
      | _ => (.err 500 "UNHANDLED_TYPE_ERROR", c1, db1)

/-- Name block of `update_customer` (`src/routes/customers.py:227-237`). -/
def update_name_block (db2 : List Customer) (cid : String) (d : Record) (c2 : Customer) :
    HResult Customer × List Customer :=
  match List.lookup "name" d with
  | none => (.ok c2, db2)
  | some v =>
    if !truthy v then (.err 400 "INVALID_NAME_UPDATE_VALUE", db2)
    else
      match v with
      | .str s =>
        if pyStrip s == "" then (.err 400 "INVALID_NAME_UPDATE_VALUE", db2)
        else (.ok { c2 with name := pyStrip s }, replaceById cid { c2 with name := pyStrip s } db2)
      | _ => (.err 500 "UNHANDLED_TYPE_ERROR", db2)

/-- Embeds `update_customer` (`src/routes/customers.py:135-239`) after its
auth decorator.  The blocks run in source order (email, phone, name) and
mutate the found customer in place, so a failure in a later block leaves the
earlier blocks' mutations in the store. -/
def update_customer (db : List Customer) (cid : String) (d : Record) :
    HResult Customer × List Customer :=
  match db.find? (fun c => c.id == cid) with
  | none => (.err 404 "CUSTOMER_NOT_FOUND", db)
  | some c0 =>
    if d.isEmpty then (.err 400 "MISSING_UPDATE_DATA", db)
    else
      -- email block (src/routes/customers.py:164-202)
      match update_email_block db cid d c0 with
      | (.err s code, _, db1) => (.err s code, db1)
      | (.ok _, c1, db1) =>
        -- phone block (src/routes/customers.py:204-225)
        match update_phone_block db1 cid d c1 with
        | (.err s code, _, db2) => (.err s code, db2)
        | (.ok _, c2, db2) =>
          -- name block (src/routes/customers.py:227-237)
          update_name_block db2 cid d c2

/-- A persisted operator row as far as the email lookup observes it. -/
structure OperatorRow where
  id : String
  email : String
deriving DecidableEq, Repr

/-- Embeds `Operator.get_by_email` (`src/app/models.py:134-164`).  The SQL is
`SELECT ... WHERE email = ? COLLATE NOCASE` with parameter `email.lower()`;
SQLite NOCASE compares after ASCII case folding, modelled by folding both
sides with `pyLower`. -/
def get_by_email (rows : List OperatorRow) (email : String) : Option OperatorRow :=
  if email == "" then none
  else rows.find? (fun r => pyLower r.email == pyLower (pyLower email))

/-! ## General lemmas -/

/-- A successful `find?` splits the list at the first hit. -/
theorem find?_decomp {α : Type} {p : α → Bool} {l : List α} {a : α}
    (h : l.find? p = some a) :
    ∃ pre post, l = pre ++ a :: post ∧ (∀ x ∈ pre, p x = false) ∧ p a = true := by
  induction l with
  | nil => simp at h
  | cons x xs ih =>
    by_cases hx : p x
    · rw [List.find?_cons_of_pos _ hx] at h
      exact ⟨[], xs, by simp [← Option.some_inj.mp h, hx]⟩
    · rw [List.find?_cons_of_neg _ (by simpa using hx)] at h
      obtain ⟨pre, post, hl, hpre, hpa⟩ := ih h
      refine ⟨x :: pre, post, by simp [hl], ?_, hpa⟩
      intro y hy
      rcases List.mem_cons.mp hy with hy | hy
      · simpa [hy] using hx
      · exact hpre y hy

/-! ## C1: auth gate precedence -/

/-- C1.  The auth gate reports exactly one rejection reason, chosen by the
fixed precedence of `require_auth`: an absent header is `MissingHeader` for
every verifier (token verification is never consulted); a header without the
`Bearer ` prefix is `MalformedHeader` for every verifier; the header
`"Bearer "` exactly (empty token) is `EmptyToken`, not `MalformedHeader`;
and with a nonempty token the outcome is decided by verification (expired,
then invalid), then by the subject claim, else `Authenticated` with the
subject identity. -/
theorem auth_gate_precedence :
    (∀ v, require_auth none v = .missingHeader)
    ∧ (∀ v h, "Bearer ".data.isPrefixOf h.data = false →
        require_auth (some h) v = .malformedHeader)
    ∧ (∀ v, require_auth (some "Bearer ") v = .emptyToken)
    ∧ (∀ v t, t ≠ "" →
        require_auth (some ("Bearer " ++ t)) v =
          match v t with
          | .expired => .expired
          | .invalid => .invalid
          | .payload claims =>
            match List.lookup "user_id" claims with
            | none => .missingSubjectClaim
            | some u => if truthy u then .authenticated u else .missingSubjectClaim) := by
  refine ⟨fun v => rfl, fun v h hm => by simp [require_auth, hm], fun v => rfl, ?_⟩
  intro v t ht
  obtain ⟨l⟩ := t
  have hd : ("Bearer " ++ String.mk l) =
      String.mk ('B' :: 'e' :: 'a' :: 'r' :: 'e' :: 'r' :: ' ' :: l) := rfl
  rw [hd]
  have hp : "Bearer ".data.isPrefixOf ('B' :: 'e' :: 'a' :: 'r' :: 'e' :: 'r' :: ' ' :: l)
      = true := by simp [List.isPrefixOf]
  simp [require_auth, hp, splitAtChar, ht]

/-- Witness for C1: the precedence theorem applied at an absent header, the
header `"Token x"`, the header `"Bearer "`, and a nonempty expired token. -/
theorem auth_gate_precedence_witness :
    require_auth none (fun _ => .invalid) = .missingHeader
    ∧ require_auth (some "Token x") (fun _ => .invalid) = .malformedHeader
    ∧ require_auth (some "Bearer ") (fun _ => .invalid) = .emptyToken
    ∧ require_auth (some ("Bearer " ++ "tok")) (fun _ => .expired) = .expired :=
  ⟨auth_gate_precedence.1 _,
   auth_gate_precedence.2.1 _ "Token x" (by decide),
   auth_gate_precedence.2.2.1 _,
   auth_gate_precedence.2.2.2 _ "tok" (by decide)⟩

/-! ## C5: order deletion gated on pending status -/

/-- C5.  For every order present in the store, deletion succeeds exactly when
its status is `pending`; any other status yields a 403 with the store
entirely unchanged, and a successful deletion removes exactly that order,
leaving every other order intact. -/
theorem delete_order_pending_only :
    ∀ (db : List Order) (oid : Int) (o : Order),
      db.find? (fun x => x.id == oid) = some o →
      ((delete_order db oid).1 = .ok "Order deleted successfully" ↔ o.status = "pending")
      ∧ (o.status ≠ "pending" →
          delete_order db oid = (.err 403 "ORDER_DELETION_FORBIDDEN", db))
      ∧ (o.status = "pending" →
          ∃ pre post, db = pre ++ o :: post ∧ (∀ x ∈ pre, ¬(x.id = oid)) ∧
            delete_order db oid = (.ok "Order deleted successfully", pre ++ post)) := by
  intro db oid o hfind
  by_cases hs : o.status = "pending"
  · obtain ⟨pre, post, hdb, hpre, hpo⟩ := find?_decomp hfind
    have hpre2 : ∀ x ∈ pre, ¬(x.id = oid) := by
      intro x hx
      simpa using hpre x hx
    have hnot : o ∉ pre := by
      intro hc
      exact hpre2 o hc (by simpa using hpo)
    have herase : db.erase o = pre ++ post := by
      rw [hdb, List.erase_append_right _ hnot, List.erase_cons_head]
    have hdel : delete_order db oid = (.ok "Order deleted successfully", pre ++ post) := by
      simp [delete_order, hfind, hs, herase]
    exact ⟨by simp [hdel, hs], fun hc => absurd hs hc, fun _ => ⟨pre, post, hdb, hpre2, hdel⟩⟩
  · have hdel : delete_order db oid = (.err 403 "ORDER_DELETION_FORBIDDEN", db) := by
      simp [delete_order, hfind, hs]
    exact ⟨by simp [hdel, hs], fun _ => hdel, fun hc => absurd hc hs⟩

/-- Witness for C5: in the initial store, order 2 (`completed`) cannot be
deleted and the store is unchanged; order 1 (`pending`) is deleted. -/
theorem delete_order_pending_only_witness :
    delete_order orders_db_init 2 = (.err 403 "ORDER_DELETION_FORBIDDEN", orders_db_init)
    ∧ (delete_order orders_db_init 1).1 = .ok "Order deleted successfully" :=
  ⟨(delete_order_pending_only orders_db_init 2 ⟨2, "PRD-002", 1, "jane@example.com", "completed"⟩
      (by decide)).2.1 (by decide),
   ((delete_order_pending_only orders_db_init 1 ⟨1, "PRD-001", 2, "john@example.com", "pending"⟩
      (by decide)).1).mpr (by decide)⟩

/-! ## C6: sanitizer contract -/

/-- C6.  The sanitizer is a total function returning a new record with the
same keys in the same order; every string entry is the input value with
surrounding whitespace stripped, every non-string entry passes through
unchanged, and lookups commute with the transformation. -/
theorem sanitize_input_spec :
    ∀ d : Record,
      ((sanitize_input d).map Prod.fst = d.map Prod.fst)
      ∧ (∀ k, List.lookup k (sanitize_input d) = (List.lookup k d).map sanitizeValue)
      ∧ (∀ s, sanitizeValue (.str s) = .str (pyStrip s))
      ∧ (∀ v, isStr v = false → sanitizeValue v = v) := by
  intro d
  refine ⟨by simp [sanitize_input], ?_, fun s => rfl, ?_⟩
  · intro k
    induction d with
    | nil => rfl
    | cons kv rest ih =>
      by_cases hk : k == kv.1
      · simp [sanitize_input, List.lookup, hk]
      · simp only [sanitize_input, List.lookup, hk] at ih ⊢
        simpa using ih
  · intro v hv
    cases v <;> simp_all [isStr, sanitizeValue]

/-- Witness for C6: the sanitizer theorem applied to a concrete record with
one padded string and one integer. -/
theorem sanitize_input_spec_witness :
    List.lookup "a" (sanitize_input [("a", Value.str " x "), ("b", Value.intV 5)])
      = some (Value.str "x")
    ∧ isStr (Value.intV 5) = false ∧ sanitizeValue (Value.intV 5) = Value.intV 5 :=
  ⟨by
    rw [(sanitize_input_spec [("a", Value.str " x "), ("b", Value.intV 5)]).2.1 "a"]
    decide,
   by decide,
   (sanitize_input_spec []).2.2.2 (Value.intV 5) (by decide)⟩

/-! ## C7: pagination parameter policy -/

/-- C7.  Listing orders: a non-integer `limit` or `offset` is a 400; a parsed
`limit <= 0` is a 400; a parsed `offset < 0` is a 400; every valid pair
returns exactly the slice of the stored orders from `offset` up to
`offset + limit` together with the total count. -/
theorem list_orders_pagination :
    ∀ (db : List Order) (lp op : Option String),
      (∀ s, lp = some s → pyIntString s = none →
          list_orders db lp op = .err 400 "INVALID_PAGINATION_PARAMS")
      ∧ (∀ s, op = some s → pyIntString s = none →
          list_orders db lp op = .err 400 "INVALID_PAGINATION_PARAMS")
      ∧ (∀ limit offset,
            parsedParam 10 lp = some limit → parsedParam 0 op = some offset →
            (limit ≤ 0 → list_orders db lp op = .err 400 "INVALID_LIMIT_VALUE")
            ∧ (0 < limit → offset < 0 →
                list_orders db lp op = .err 400 "INVALID_OFFSET_VALUE")
            ∧ (0 < limit → 0 ≤ offset →
                list_orders db lp op =
                  .ok ((db.drop offset.toNat).take limit.toNat, db.length))) := by
  intro db lp op
  refine ⟨?_, ?_, ?_⟩
  · intro s hs hparse
    subst hs
    simp [list_orders, parsedParam, hparse]
  · intro s hs hparse
    subst hs
    cases hlv : parsedParam 10 lp <;> simp [list_orders, parsedParam, hparse, hlv]
  · intro limit offset hl ho
    have hslice : 0 < limit → 0 ≤ offset →
        pySlice db offset (offset + limit) = (db.drop offset.toNat).take limit.toNat := by
      intro h1 h2
      unfold pySlice
      congr 1
      omega
    refine ⟨?_, ?_, ?_⟩
    · intro hle
      simp [list_orders, hl, ho, hle]
    · intro h1 h2
      have hnle : ¬ limit ≤ 0 := by omega
      simp [list_orders, hl, ho, h2, hnle]
    · intro h1 h2
      have hnle : ¬ limit ≤ 0 := by omega
      have hnlt : ¬ offset < 0 := by omega
      simp [list_orders, hl, ho, hslice h1 h2, hnle, hnlt]

/-- Witness for C7: the pagination theorem applied to a bad limit string, a
negative offset, and a valid pair on the initial store. -/
theorem list_orders_pagination_witness :
    list_orders orders_db_init (some "ten") none = .err 400 "INVALID_PAGINATION_PARAMS"
    ∧ list_orders orders_db_init (some "1") (some "-1") = .err 400 "INVALID_OFFSET_VALUE"
    ∧ list_orders orders_db_init (some "1") (some "1") =
        .ok ([⟨2, "PRD-002", 1, "jane@example.com", "completed"⟩], 2) :=
  ⟨(list_orders_pagination orders_db_init (some "ten") none).1 "ten" rfl (by decide),
   by
    have := ((list_orders_pagination orders_db_init (some "1") (some "-1")).2.2 1 (-1)
      (by decide) (by decide)).2.1 (by decide) (by decide)
    simpa using this,
   by
    have := ((list_orders_pagination orders_db_init (some "1") (some "1")).2.2 1 1
      (by decide) (by decide)).2.2 (by decide) (by decide)
    rw [this]
    decide⟩

/-! ## Inversion lemmas for successful creates -/

/-- A successful `create_order` happened in the final branch: the id is the
store length plus one and the order is appended. -/
theorem create_order_ok_inv {db : List Order} {d : Record} {o : Order} {db2 : List Order}
    (h : create_order db d = (.ok o, db2)) :
    o.id = (db.length : Int) + 1 ∧ db2 = db ++ [o] := by
  unfold create_order at h
  repeat' split at h
  all_goals simp only [Prod.mk.injEq] at h
  all_goals first
    | exact HResult.noConfusion h.1
    | (obtain ⟨h1, h2⟩ := h
       injection h1 with h1
       subst h1
       subst h2
       simp [newOrder])

/-- A successful `create_product` happened in the final branch. -/
theorem create_product_ok_inv {db : List Product} {d : Record} {p : Product}
    {db2 : List Product} (h : create_product db d = (.ok p, db2)) :
    p.id = "PRD-" ++ pad3 (db.length + 1) ∧ db2 = db ++ [p] := by
  unfold create_product at h
  repeat' split at h
  all_goals simp only [Prod.mk.injEq] at h
  all_goals first
    | exact HResult.noConfusion h.1
    | (obtain ⟨h1, h2⟩ := h
       injection h1 with h1
       subst h1
       subst h2
       simp [newProduct])

/-- A successful `create_customer` happened in the final branch: all three
fields were strings and the stored customer has id `CUST-` length-plus-one,
stripped name and lowercased email. -/
theorem create_customer_ok_inv {db : List Customer} {d : Record} {c : Customer}
    {db2 : List Customer} (h : create_customer db d = (.ok c, db2)) :
    ∃ ns es phs, getV d "name" = .str ns ∧ getV d "email" = .str es ∧
      getV d "phone" = .str phs ∧ c = newCustomer db ns es phs ∧ db2 = db ++ [c] := by
  unfold create_customer at h
  repeat' split at h
  all_goals simp only [Prod.mk.injEq] at h
  all_goals first
    | exact HResult.noConfusion h.1
    | (obtain ⟨h1, h2⟩ := h
       injection h1 with h1
       subst h1
       subst h2
       refine ⟨_, _, _, ?_, ?_, ?_, rfl, rfl⟩ <;> assumption)

/-- A successful routed `create_order` passed the token check and ran the
handler. -/
theorem create_order_route_ok_inv {hdr : Option String} {db : List Order} {d : Record}
    {o : Order} {db2 : List Order} (h : create_order_route hdr db d = (.ok o, db2)) :
    create_order db d = (.ok o, db2) := by
  cases hdr with
  | none => simp [create_order_route, token_required] at h
  | some s => simpa [create_order_route, token_required] using h

/-! ## C3: parse failures are 400, range failures are 422 -/

/-- C3 counterexample.  The claim says a quantity that parses but violates
the range (`quantity <= 0`) is a 422, for any input.  A supplied quantity of
0 parses (`int(0) = 0`) and violates the range, yet it is falsy, so the
required-field stage of `create_order` (`if field not in data or not
data[field]`, `src/routes/orders.py:43-54`) flags it first and the response
is 400 `MISSING_REQUIRED_FIELDS`, not 422. -/
theorem quantity_required_stage_counterexample :
    (create_order [] [("product_id", Value.str "PRD-001"), ("quantity", Value.intV 0),
        ("customer_email", Value.str "a@b.com")]).1 = .err 400 "MISSING_REQUIRED_FIELDS"
    ∧ pyIntVal (Value.intV 0) = some 0 ∧ (0 : Int) ≤ 0 := by decide

/-- C3 amended.  On create, a price that fails to parse as a number is a 400
and a parsed price `<= 0` is a 422; a stock that fails to parse as an
integer is a 400 and a parsed stock `< 0` is a 422 (price and stock equal to
0 pass the required stage via the `!= 0` exemption, and the falsy values it
rejects there do not parse anyway).  For orders: once the required stage
passes (all required values truthy), a quantity that fails to parse is a 400
and a parsed quantity `<= 0` is a 422; but a supplied falsy quantity (0,
0.0, `False`) is caught by the required-field stage and yields 400
`MISSING_REQUIRED_FIELDS` even though such a value converts to 0 — and
every falsy value either fails to convert or converts to 0.  Within each
reachable validation, parse failure (400) and range failure (422) are never
swapped.  (For every float the program builds the denominator is positive,
so `num <= 0` is exactly "value `<= 0`".) -/
theorem parse_range_status_split :
    (∀ (db : List Product) (d : Record),
       d.isEmpty = false → productMissing d = [] → productEmpty d = [] →
       (pyFloatVal (getV d "price") = none →
           (create_product db d).1 = .err 400 "INVALID_PRICE_TYPE")
       ∧ (∀ num den, pyFloatVal (getV d "price") = some (num, den) → num ≤ 0 →
           (create_product db d).1 = .err 422 "INVALID_PRICE_VALUE")
       ∧ (∀ num den, pyFloatVal (getV d "price") = some (num, den) → 0 < num →
           (pyIntVal (getV d "stock") = none →
               (create_product db d).1 = .err 400 "INVALID_STOCK_TYPE")
           ∧ (∀ st, pyIntVal (getV d "stock") = some st → st < 0 →
               (create_product db d).1 = .err 422 "INVALID_STOCK_VALUE")))
    ∧ (∀ (db : List Order) (d : Record),
        d.isEmpty = false →
        (∀ f ∈ orderRequired, hasKey d f = true ∧ truthy (getV d f) = true) →
        ∀ ps, getV d "product_id" = .str ps → "PRD-".data.isPrefixOf ps.data = true →
          (pyIntVal (getV d "quantity") = none →
              (create_order db d).1 = .err 400 "INVALID_QUANTITY_TYPE")
          ∧ (∀ q, pyIntVal (getV d "quantity") = some q → q ≤ 0 →
              (create_order db d).1 = .err 422 "INVALID_QUANTITY_VALUE"))
    ∧ (∀ (db : List Order) (d : Record),
        d.isEmpty = false → hasKey d "quantity" = true →
        truthy (getV d "quantity") = false →
        (create_order db d).1 = .err 400 "MISSING_REQUIRED_FIELDS")
    ∧ (∀ v : Value, truthy v = false → pyIntVal v = none ∨ pyIntVal v = some 0) := by
  refine ⟨?_, ?_, ?_, ?_⟩
  · intro db d hne hm he
    refine ⟨?_, ?_, ?_⟩
    · intro hpf
      simp [create_product, hne, hm, he, hpf]
    · intro num den hpf hle
      simp [create_product, hne, hm, he, hpf, hle]
    · intro num den hpf hpos
      have hnle : ¬ num ≤ 0 := by omega
      refine ⟨?_, ?_⟩
      · intro hst
        simp [create_product, hne, hm, he, hpf, hst, hnle]
      · intro st hst hneg
        simp [create_product, hne, hm, he, hpf, hst, hneg, hnle]
  · intro db d hne hreq ps hps hpre
    have hmiss : orderMissing d = [] := by
      refine List.filter_eq_nil_iff.mpr ?_
      intro f hf
      obtain ⟨h1, h2⟩ := hreq f hf
      simp [h1, h2]
    refine ⟨?_, ?_⟩
    · intro hq
      simp [create_order, hne, hmiss, hps, hpre, hq]
    · intro q hq hle
      simp [create_order, hne, hmiss, hps, hpre, hq, hle]
  · intro db d hne hk ht
    have hmem : "quantity" ∈ orderMissing d := by
      unfold orderMissing
      rw [List.mem_filter]
      refine ⟨by decide, ?_⟩
      simp [hk, ht]
    have hne2 : (orderMissing d).isEmpty = false := by
      cases hmo : orderMissing d with
      | nil =>
        rw [hmo] at hmem
        cases hmem
      | cons a l => rfl
    simp [create_order, hne, hne2]
  · intro v ht
    cases v with
    | str s =>
      have hs : s = "" := by simpa [truthy] using ht
      subst hs
      exact Or.inl rfl
    | intV n =>
      have hn : n = 0 := by simpa [truthy] using ht
      subst hn
      exact Or.inr rfl
    | floatV num den =>
      have hn : num = 0 := by simpa [truthy] using ht
      subst hn
      exact Or.inr (by simp [pyIntVal, Int.zero_tdiv])
    | boolV b =>
      have hb : b = false := by simpa [truthy] using ht
      subst hb
      exact Or.inr rfl
    | null => exact Or.inl rfl

/-- Witness for C3: the spec's concrete scenario `{name: Mouse, price: -5,
category: X, stock: 1}` is a 422 with `INVALID_PRICE_VALUE`; the same record
with price `"abc"` is a 400 with `INVALID_PRICE_TYPE`; an order body with
quantity `"x"` is a 400 with `INVALID_QUANTITY_TYPE`; and one with the falsy
quantity 0.0 is a 400 `MISSING_REQUIRED_FIELDS`. -/
theorem parse_range_status_split_witness :
    (create_product [] [("name", Value.str "Mouse"), ("price", Value.floatV (-5) 1),
        ("category", Value.str "X"), ("stock", Value.intV 1)]).1
      = .err 422 "INVALID_PRICE_VALUE"
    ∧ (create_product [] [("name", Value.str "Mouse"), ("price", Value.str "abc"),
        ("category", Value.str "X"), ("stock", Value.intV 1)]).1
      = .err 400 "INVALID_PRICE_TYPE"
    ∧ (create_order [] [("product_id", Value.str "PRD-001"), ("quantity", Value.str "x"),
        ("customer_email", Value.str "a@b.com")]).1
      = .err 400 "INVALID_QUANTITY_TYPE"
    ∧ (create_order [] [("product_id", Value.str "PRD-001"), ("quantity", Value.floatV 0 10),
        ("customer_email", Value.str "a@b.com")]).1
      = .err 400 "MISSING_REQUIRED_FIELDS"
    ∧ (pyIntVal (Value.floatV 0 10) = none ∨ pyIntVal (Value.floatV 0 10) = some 0) :=
  ⟨(parse_range_status_split.1 _ _ (by decide) (by decide) (by decide)).2.1 (-5) 1
      (by decide) (by decide),
   (parse_range_status_split.1 _ _ (by decide) (by decide) (by decide)).1 (by decide),
   (parse_range_status_split.2.1 _ _ (by decide)
      (by decide) "PRD-001" (by decide) (by decide)).1 (by decide),
   parse_range_status_split.2.2.1 []
      [("product_id", Value.str "PRD-001"), ("quantity", Value.floatV 0 10),
       ("customer_email", Value.str "a@b.com")] (by decide) (by decide) (by decide),
   parse_range_status_split.2.2.2 (Value.floatV 0 10) (by decide)⟩

/-! ## C8: details gated by the debug flag -/

/-- The details entry of the invalid-token response built inline by
`require_auth` (`src/app/utils.py:142`): `str(e) if os.getenv(DEBUG) else
None`. -/
def invalid_token_details (e : String) (debug : Bool) : Option String :=
  if debug then some e else none

/-- C8 counterexample.  The claim says details are included exactly when the
debug flag is set and the details value is non-null.  The empty string is a
non-null details value, the debug flag is set, and yet the emitted body
carries no details: the code tests Python truthiness (`if details and ...`),
not nullness. -/
theorem error_details_nonnull_counterexample :
    (create_error_response "boom" 500 none (some (Value.str "")) true).1.details = none
    ∧ some (Value.str "") ≠ (none : Option Value) := by
  constructor
  · rfl
  · intro h
    cases h

/-- C8 amended.  The details field is included in the emitted body if and
only if the debug flag is set and the supplied details value is non-null and
truthy; when included it is exactly the supplied value; and with the debug
flag unset the whole response is independent of the details value, so
internal exception text is never leaked in non-debug mode (likewise the
details entry that `require_auth` computes for its invalid-token response is
`None` for every exception text when the flag is unset). -/
theorem error_details_gated :
    ∀ (m : String) (st : Nat) (hint : Option String) (dt : Option Value) (debug : Bool),
      ((create_error_response m st hint dt debug).1.details ≠ none ↔
        debug = true ∧ ∃ v, dt = some v ∧ truthy v = true)
      ∧ ((create_error_response m st hint dt debug).1.details ≠ none →
          (create_error_response m st hint dt debug).1.details = dt)
      ∧ (debug = false → ∀ dt2,
          create_error_response m st hint dt debug = create_error_response m st hint dt2 debug)
      ∧ (∀ e1 e2, invalid_token_details e1 false = invalid_token_details e2 false) := by
  intro m st hint dt debug
  refine ⟨?_, ?_, ?_, fun e1 e2 => rfl⟩
  · cases dt with
    | none => simp [create_error_response]
    | some v =>
      cases hv : truthy v <;> cases debug <;>
        simp [create_error_response, hv]
  · cases dt with
    | none => simp [create_error_response]
    | some v =>
      cases hv : truthy v <;> cases debug <;>
        simp [create_error_response, hv]
  · intro hdb dt2
    subst hdb
    cases dt <;> cases dt2 <;> simp [create_error_response]

/-- Witness for C8: with the debug flag unset, a response built with secret
exception text equals the response built with no details at all. -/
theorem error_details_gated_witness :
    create_error_response "m" 500 none (some (Value.str "secret")) false =
      create_error_response "m" 500 none none false :=
  (error_details_gated "m" 500 none (some (Value.str "secret")) false).2.2.1 rfl none

/-! ## C9: length-derived ids and id reuse -/

/-- Concrete valid order body used for the id-reuse scenario. -/
def seqOrderBody : Record :=
  [("product_id", Value.str "PRD-001"), ("quantity", Value.intV 1),
   ("customer_email", Value.str "a@b.com")]

/-- C9.  Every accepted order gets id `len(orders_db) + 1`, every accepted
product gets id `PRD-` followed by the padded length-plus-one, every
accepted customer gets `CUST-` likewise; consequently id uniqueness is not
an invariant: starting from the initial store, an authenticated
create / delete / create sequence leaves two distinct stored orders with the
same id 3. -/
theorem ids_from_length_and_reuse :
    (∀ hdr (db : List Order) d o db2, create_order_route hdr db d = (.ok o, db2) →
        o.id = (db.length : Int) + 1 ∧ db2 = db ++ [o])
    ∧ (∀ (db : List Product) d p db2, create_product db d = (.ok p, db2) →
        p.id = "PRD-" ++ pad3 (db.length + 1))
    ∧ (∀ (db : List Customer) d c db2, create_customer db d = (.ok c, db2) →
        c.id = "CUST-" ++ pad3 (db.length + 1))
    ∧ (let hdr := some "Bearer tok"
       let db1 := (create_order_route hdr orders_db_init seqOrderBody).2
       let db2 := (delete_order_route hdr db1 1).2
       let db3 := (create_order_route hdr db2 seqOrderBody).2
       db3.length = 3
       ∧ (db3.get? 1).map Order.id = some 3
       ∧ (db3.get? 2).map Order.id = some 3) := by
  refine ⟨?_, ?_, ?_, by decide⟩
  · intro hdr db d o db2 h
    exact create_order_ok_inv (create_order_route_ok_inv h)
  · intro db d p db2 h
    exact (create_product_ok_inv h).1
  · intro db d c db2 h
    obtain ⟨ns, es, phs, _, _, _, hc, _⟩ := create_customer_ok_inv h
    rw [hc]
    rfl

/-- Witness for C9: the first conjunct applied to the concrete authenticated
create on the initial store. -/
theorem ids_from_length_and_reuse_witness :
    (newOrder orders_db_init "PRD-001" 1 "a@b.com").id = (orders_db_init.length : Int) + 1 :=
  (ids_from_length_and_reuse.1 (some "Bearer tok") orders_db_init seqOrderBody
    (newOrder orders_db_init "PRD-001" 1 "a@b.com")
    (orders_db_init ++ [newOrder orders_db_init "PRD-001" 1 "a@b.com"]) (by decide)).1

/-! ## C10: quantity coercion on order create -/

/-- C10.  Order creation accepts any quantity on which Python integer
conversion succeeds with a positive result: the numeric string `"2"` is
coerced to 2, the float 2.9 is truncated toward zero to 2, and in general
the stored quantity is the converted integer, not the supplied value. -/
theorem quantity_coercion :
    pyIntVal (Value.str "2") = some 2
    ∧ pyIntVal (Value.floatV 29 10) = some 2
    ∧ (∀ (db : List Order) (d : Record) (n : Int) (ps es : String),
        d.isEmpty = false →
        (∀ f ∈ orderRequired, hasKey d f = true ∧ truthy (getV d f) = true) →
        getV d "product_id" = .str ps → "PRD-".data.isPrefixOf ps.data = true →
        getV d "customer_email" = .str es → emailMatch es = true →
        pyIntVal (getV d "quantity") = some n → 0 < n →
        create_order db d = (.ok (newOrder db ps n es), db ++ [newOrder db ps n es])
        ∧ (newOrder db ps n es).quantity = n) := by
  refine ⟨by decide, by decide, ?_⟩
  intro db d n ps es hne hreq hps hpre hes hem hq hpos
  have hmiss : orderMissing d = [] := by
    refine List.filter_eq_nil_iff.mpr ?_
    intro f hf
    obtain ⟨h1, h2⟩ := hreq f hf
    simp [h1, h2]
  have hnle : ¬ n ≤ 0 := by omega
  constructor
  · simp [create_order, hne, hmiss, hps, hpre, hes, hem, hq, hnle]
  · rfl

/-- Witness for C10: the general coercion statement applied to a body whose
quantity is the string `"2"`, and to one whose quantity is the float 2.9;
both stored orders carry quantity 2. -/
theorem quantity_coercion_witness :
    create_order [] [("product_id", Value.str "PRD-001"), ("quantity", Value.str "2"),
        ("customer_email", Value.str "a@b.com")]
      = (.ok (newOrder [] "PRD-001" 2 "a@b.com"), [newOrder [] "PRD-001" 2 "a@b.com"])
    ∧ create_order [] [("product_id", Value.str "PRD-001"), ("quantity", Value.floatV 29 10),
        ("customer_email", Value.str "a@b.com")]
      = (.ok (newOrder [] "PRD-001" 2 "a@b.com"), [newOrder [] "PRD-001" 2 "a@b.com"]) :=
  ⟨(quantity_coercion.2.2 [] _ 2 "PRD-001" "a@b.com" (by decide) (by decide) (by decide)
      (by decide) (by decide) (by decide) (by decide) (by decide)).1,
   (quantity_coercion.2.2 [] _ 2 "PRD-001" "a@b.com" (by decide) (by decide) (by decide)
      (by decide) (by decide) (by decide) (by decide) (by decide)).1⟩

/-! ## C2: validation accumulation -/

/-- Length is zero exactly for the empty string. -/
theorem stringLength_zero (s : String) : s.length = 0 ↔ s = "" := by
  constructor
  · intro h
    cases s with
    | mk l =>
      have hll : l = [] := List.length_eq_zero.mp (by simpa [String.length] using h)
      subst hll
      rfl
  · intro h
    subst h
    rfl

/-- The spec's name rule (§4.3): required unless updating; if present it must
be a string that is non-empty after trimming and at most 255 characters. -/
def specNameRule (d : Record) (update : Bool) : Prop :=
  (update = false → hasKey d "name" = true) ∧
  ∀ v, List.lookup "name" d = some v →
    ∃ s, v = Value.str s ∧ pyStrip s ≠ "" ∧ (pyStrip s).length ≤ 255

/-- The spec's email rule (§4.3): required unless updating; if present it
must be a string of at most 320 characters matching the email pattern. -/
def specEmailRule (d : Record) (update : Bool) : Prop :=
  (update = false → hasKey d "email" = true) ∧
  ∀ v, List.lookup "email" d = some v →
    ∃ s, v = Value.str s ∧ s.length ≤ 320 ∧ emailMatch s = true

/-- The spec's phone rule (§4.3): optional; if present and non-empty it must
be a string of at most 20 characters whose separator-stripped form matches
the phone pattern. -/
def specPhoneRule (d : Record) : Prop :=
  ∀ v, List.lookup "phone" d = some v → truthy v = true →
    ∃ s, v = Value.str s ∧ s.length ≤ 20 ∧ phoneMatch (stripPhoneSeps s) = true

/-- The spec's fail-closed schema rule (§4.3): every key is one of the three
allowed fields. -/
def specAllowedFields (d : Record) : Prop :=
  ∀ k ∈ d.map Prod.fst, k = "name" ∨ k = "email" ∨ k = "phone"

/-- The name block reports nothing exactly when the spec's name rule holds. -/
theorem nameErrors_nil (d : Record) (update : Bool) :
    nameErrors d update = [] ↔ specNameRule d update := by
  unfold nameErrors specNameRule
  cases hl : List.lookup "name" d with
  | none =>
    have hk : hasKey d "name" = false := by simp [hasKey, hl]
    cases update <;> simp [hk, hl]
  | some v =>
    have hk : hasKey d "name" = true := by simp [hasKey, hl]
    have hfirst : (!update && !hasKey d "name") = false := by simp [hk]
    rw [hfirst]
    cases v with
    | str s =>
      simp only [Bool.false_eq_true, if_false, hl, hk]
      by_cases h0 : s = ""
      · subst h0
        simp [pyStrip]
      · by_cases h1 : (pyStrip s).length = 0
        · have h2 : pyStrip s = "" := (stringLength_zero _).mp h1
          simp [h0, h1, h2]
        · have h2 : pyStrip s ≠ "" := fun hc => h1 (by rw [hc]; rfl)
          by_cases h3 : (pyStrip s).length > 255
          · simp [h0, h1, h3, h2]
          · simp [h0, h1, h3, h2]
            omega
    | intV n => simp [hk]
    | floatV a b => simp [hk]
    | boolV b => simp [hk]
    | null => simp [hk]

/-- The email block reports nothing exactly when the spec's email rule
holds. -/
theorem emailErrors_nil (d : Record) (update : Bool) :
    emailErrors d update = [] ↔ specEmailRule d update := by
  unfold emailErrors specEmailRule
  cases hl : List.lookup "email" d with
  | none =>
    have hk : hasKey d "email" = false := by simp [hasKey, hl]
    cases update <;> simp [hk, hl]
  | some v =>
    have hk : hasKey d "email" = true := by simp [hasKey, hl]
    cases v with
    | str s =>
      by_cases h0 : s = ""
      · subst h0
        simp [emailMatch, splitAtChar]
      · by_cases h1 : s.length > 320
        · simp [h0, h1, hk]
        · by_cases h2 : emailMatch s
          · simp [h0, h1, h2, hk]
            omega
          · simp [h0, h1, h2, hk]
    | intV n => simp [hk]
    | floatV a b => simp [hk]
    | boolV b => simp [hk]
    | null => simp [hk]

/-- The phone block reports nothing exactly when the spec's phone rule
holds. -/
theorem phoneErrors_nil (d : Record) :
    phoneErrors d = [] ↔ specPhoneRule d := by
  unfold phoneErrors specPhoneRule
  cases hl : List.lookup "phone" d with
  | none => simp
  | some v =>
    cases v with
    | str s =>
      by_cases h0 : s = ""
      · subst h0
        simp [truthy]
      · have ht : truthy (Value.str s) = true := by simp [truthy, h0]
        by_cases h1 : s.length > 20
        · simp [ht, h1]
        · by_cases h2 : phoneMatch (stripPhoneSeps s)
          · simp [ht, h1, h2]
            omega
          · simp [ht, h1, h2]
    | intV n =>
      by_cases ht : truthy (Value.intV n) <;> simp [ht]
    | floatV a b =>
      by_cases ht : truthy (Value.floatV a b) <;> simp [ht]
    | boolV b =>
      by_cases ht : truthy (Value.boolV b) <;> simp [ht]
    | null => simp [truthy]

/-- The unexpected-field block reports nothing exactly when every key is
allowed. -/
theorem unexpectedErrors_nil (d : Record) :
    unexpectedErrors d = [] ↔ specAllowedFields d := by
  unfold unexpectedErrors specAllowedFields
  by_cases h : (((d.map Prod.fst).dedup).filter
      (fun k => !(k == "name" || k == "email" || k == "phone"))).isEmpty
  · simp only [h, if_true]
    rw [List.isEmpty_iff, List.filter_eq_nil_iff] at h
    constructor
    · intro _ k hk
      have hx := h k (List.mem_dedup.mpr hk)
      simp at hx
      tauto
    · intro _
      trivial
  · simp only [h, if_false]
    have hne : ¬ (((d.map Prod.fst).dedup).filter
        (fun k => !(k == "name" || k == "email" || k == "phone"))) = [] := by
      intro hc
      exact h (by rw [hc]; rfl)
    obtain ⟨k, hk⟩ := List.exists_mem_of_ne_nil _ hne
    have hkd := List.mem_filter.mp hk
    have hk1 : k ∈ d.map Prod.fst := List.mem_dedup.mp hkd.1
    have hk2 := hkd.2
    simp at hk2
    constructor
    · intro hc
      simp at hc
    · intro hall
      exfalso
      rcases hall k hk1 with hc | hc | hc <;> simp [hc] at hk2

/-- C2 counterexample.  The claim asserts every resource type's validation
pass accumulates all failing rules.  The products create handler does not:
this record violates both the price rule (`"abc"` does not parse as a
number) and the stock rule (`"xyz"` does not parse as an integer), yet the
emitted response reports only the price failure and never mentions stock —
validation returned at the first failing rule. -/
theorem validation_short_circuit_counterexample :
    (create_product [] [("name", Value.str "X"), ("price", Value.str "abc"),
        ("category", Value.str "C"), ("stock", Value.str "xyz")]).1
      = .err 400 "INVALID_PRICE_TYPE"
    ∧ pyIntVal (Value.str "xyz") = none := by decide

/-- C2 amended.  The operator validation pass applies the four field rules
independently and accumulates all their messages in order: the returned list
is the concatenation of the per-rule reports, a message is returned exactly
when its rule produced it, and the list is empty exactly when the record
satisfies every spec rule (name, email, phone, fail-closed schema).  The
customers/orders/products handlers instead accumulate only the
required-field stage and return at the first failing rule thereafter (see
the counterexample). -/
theorem operator_validation_accumulates :
    ∀ (d : Record) (update : Bool),
      validate_operator_data d update =
        nameErrors d update ++ emailErrors d update ++ phoneErrors d ++ unexpectedErrors d
      ∧ (validate_operator_data d update = [] ↔
          (specNameRule d update ∧ specEmailRule d update ∧ specPhoneRule d
            ∧ specAllowedFields d))
      ∧ (∀ msg, msg ∈ validate_operator_data d update ↔
          (msg ∈ nameErrors d update ∨ msg ∈ emailErrors d update ∨
           msg ∈ phoneErrors d ∨ msg ∈ unexpectedErrors d)) := by
  intro d update
  refine ⟨rfl, ?_, ?_⟩
  · rw [validate_operator_data]
    simp only [List.append_eq_nil]
    rw [nameErrors_nil, emailErrors_nil, phoneErrors_nil, unexpectedErrors_nil]
    tauto
  · intro msg
    simp only [validate_operator_data, List.mem_append]
    tauto

/-- Witness for C2: on a record violating both the name rule (whitespace
only) and the email rule (bad format), the pass returns both messages; on an
acceptable record the equivalence yields all four spec rules; on the empty
record the name-required message is a member. -/
theorem operator_validation_accumulates_witness :
    validate_operator_data [("name", Value.str " "), ("email", Value.str "bad")] false =
      ["name cannot be empty or whitespace only",
       "email format is invalid - must be a valid email address"]
    ∧ (specNameRule [("name", Value.str "A"), ("email", Value.str "a@b.com")] false
        ∧ specEmailRule [("name", Value.str "A"), ("email", Value.str "a@b.com")] false
        ∧ specPhoneRule [("name", Value.str "A"), ("email", Value.str "a@b.com")]
        ∧ specAllowedFields [("name", Value.str "A"), ("email", Value.str "a@b.com")])
    ∧ "name is required" ∈ validate_operator_data [] false :=
  ⟨by decide,
   (operator_validation_accumulates [("name", Value.str "A"), ("email", Value.str "a@b.com")]
      false).2.1.mp (by decide),
   ((operator_validation_accumulates [] false).2.2 "name is required").mpr
      (Or.inl (by decide))⟩

/-! ## C4: case-insensitive email identity -/

/-- Characters are recovered from their codepoints. -/
theorem charToNat_inj {c1 c2 : Char} (h : c1.toNat = c2.toNat) : c1 = c2 := by
  have h1 := Char.ofNat_toNat c1
  rw [h, Char.ofNat_toNat] at h1
  exact h1.symm

/-- Codepoint of `Char.ofNat` on a valid codepoint. -/
theorem charToNat_ofNat {n : Nat} (h : n.isValidChar) : (Char.ofNat n).toNat = n := by
  simp [Char.ofNat, h, Char.ofNatAux, Char.toNat, UInt32.toNat]

/-- Two characters with the same lowercase form are equal or are both
letters (an uppercase and lowercase pair). -/
theorem pyLowerChar_cases {c1 c2 : Char} (h : pyLowerChar c1 = pyLowerChar c2) :
    c1 = c2 ∨ (isAsciiLetter c1 = true ∧ isAsciiLetter c2 = true) := by
  unfold pyLowerChar at h
  by_cases h1 : 65 ≤ c1.toNat ∧ c1.toNat ≤ 90
  · by_cases h2 : 65 ≤ c2.toNat ∧ c2.toNat ≤ 90
    · rw [if_pos h1, if_pos h2] at h
      have := congrArg Char.toNat h
      rw [charToNat_ofNat (by left; omega), charToNat_ofNat (by left; omega)] at this
      exact Or.inl (charToNat_inj (by omega))
    · rw [if_pos h1, if_neg h2] at h
      have := congrArg Char.toNat h
      rw [charToNat_ofNat (by left; omega)] at this
      refine Or.inr ⟨?_, ?_⟩
      · simp [isAsciiLetter, isAsciiUpper]
        omega
      · simp [isAsciiLetter, isAsciiUpper, isAsciiLower]
        omega
  · by_cases h2 : 65 ≤ c2.toNat ∧ c2.toNat ≤ 90
    · rw [if_neg h1, if_pos h2] at h
      have := congrArg Char.toNat h
      rw [charToNat_ofNat (by left; omega)] at this
      refine Or.inr ⟨?_, ?_⟩
      · simp [isAsciiLetter, isAsciiUpper, isAsciiLower]
        omega
      · simp [isAsciiLetter, isAsciiUpper]
        omega
    · rw [if_neg h1, if_neg h2] at h
      exact Or.inl h

/-- A character predicate that is constant on letters is stable under
lowercase collapse. -/
theorem stable_of_letter_const {P : Char → Bool} {b : Bool}
    (hP : ∀ c, isAsciiLetter c = true → P c = b) :
    ∀ c1 c2, pyLowerChar c1 = pyLowerChar c2 → P c1 = P c2 := by
  intro c1 c2 h
  rcases pyLowerChar_cases h with h | ⟨h1, h2⟩
  · rw [h]
  · rw [hP c1 h1, hP c2 h2]

/-- Letters belong to the email local class. -/
theorem letter_isLocal {c : Char} (hc : isAsciiLetter c = true) : isLocalChar c = true := by
  simp [isLocalChar, hc]

/-- Letters belong to the email domain class. -/
theorem letter_isDomain {c : Char} (hc : isAsciiLetter c = true) : isDomainChar c = true := by
  simp [isDomainChar, hc]

/-- Codepoint range of a letter. -/
theorem letter_toNat {c : Char} (hc : isAsciiLetter c = true) :
    (65 ≤ c.toNat ∧ c.toNat ≤ 90) ∨ (97 ≤ c.toNat ∧ c.toNat ≤ 122) := by
  simp [isAsciiLetter, isAsciiUpper, isAsciiLower] at hc
  omega

/-- Letters are not whitespace. -/
theorem letter_not_space {c : Char} (hc : isAsciiLetter c = true) : isSpaceChar c = false := by
  have h := letter_toNat hc
  simp only [isSpaceChar, Bool.or_eq_false_iff, beq_eq_false_iff_ne, ne_eq]
  refine ⟨⟨⟨⟨⟨?_, ?_⟩, ?_⟩, ?_⟩, ?_⟩, ?_⟩ <;>
    (intro he; subst he; revert h; decide)

/-- Letters differ from every character below codepoint 65. -/
theorem letter_ne_lowcp {c x : Char} (hc : isAsciiLetter c = true) (hx : x.toNat < 65) :
    (c == x) = false := by
  have h := letter_toNat hc
  by_contra hb
  rw [Bool.not_eq_false, beq_iff_eq] at hb
  subst hb
  omega

/-- Comparison with the at-sign is stable under lowercase collapse. -/
theorem atSign_stable :
    ∀ a b : Char, pyLowerChar a = pyLowerChar b → (a == '@') = (b == '@') :=
  stable_of_letter_const (fun _ hc => letter_ne_lowcp hc (by decide))

/-- Comparison with the dot is stable under lowercase collapse. -/
theorem dot_stable :
    ∀ a b : Char, pyLowerChar a = pyLowerChar b → (a == '.') = (b == '.') :=
  stable_of_letter_const (fun _ hc => letter_ne_lowcp hc (by decide))

/-- The local class is stable under lowercase collapse. -/
theorem localChar_stable :
    ∀ a b : Char, pyLowerChar a = pyLowerChar b → isLocalChar a = isLocalChar b :=
  stable_of_letter_const (fun _ hc => letter_isLocal hc)

/-- The domain class is stable under lowercase collapse. -/
theorem domainChar_stable :
    ∀ a b : Char, pyLowerChar a = pyLowerChar b → isDomainChar a = isDomainChar b :=
  stable_of_letter_const (fun _ hc => letter_isDomain hc)

/-- The letter class is stable under lowercase collapse. -/
theorem letterChar_stable :
    ∀ a b : Char, pyLowerChar a = pyLowerChar b → isAsciiLetter a = isAsciiLetter b :=
  stable_of_letter_const (fun _ hc => hc)

/-- The whitespace class is stable under lowercase collapse. -/
theorem spaceChar_stable :
    ∀ a b : Char, pyLowerChar a = pyLowerChar b → isSpaceChar a = isSpaceChar b :=
  stable_of_letter_const (fun _ hc => letter_not_space hc)

/-- Lowercase equality of strings is pointwise lowercase equality of their
characters. -/
theorem pyLower_eq_iff {s1 s2 : String} :
    pyLower s1 = pyLower s2 ↔ s1.data.map pyLowerChar = s2.data.map pyLowerChar := by
  constructor
  · intro h
    simpa [pyLower] using congrArg String.data h
  · intro h
    simp [pyLower, h]

/-- Lists with equal lowercase images have equal length. -/
theorem mapped_length {l1 l2 : List Char} (h : l1.map pyLowerChar = l2.map pyLowerChar) :
    l1.length = l2.length := by
  rw [← List.length_map l1 pyLowerChar, h, List.length_map]

/-- Lists with equal lowercase images are simultaneously empty. -/
theorem isEmpty_stable {l1 l2 : List Char} (h : l1.map pyLowerChar = l2.map pyLowerChar) :
    l1.isEmpty = l2.isEmpty := by
  cases l1 <;> cases l2 <;> simp_all

/-- A stable predicate tests equally on lists with equal lowercase images. -/
theorem all_stable {P : Char → Bool}
    (hP : ∀ a b, pyLowerChar a = pyLowerChar b → P a = P b) :
    ∀ l1 l2 : List Char, l1.map pyLowerChar = l2.map pyLowerChar → l1.all P = l2.all P := by
  intro l1
  induction l1 with
  | nil =>
    intro l2 h
    cases l2 with
    | nil => rfl
    | cons y ys => simp at h
  | cons x xs ih =>
    intro l2 h
    cases l2 with
    | nil => simp at h
    | cons y ys =>
      simp only [List.map_cons, List.cons.injEq] at h
      simp [List.all_cons, hP x y h.1, ih ys h.2]

/-- Dropping a stable prefix preserves lowercase-image equality. -/
theorem dropWhile_stable {P : Char → Bool}
    (hP : ∀ a b, pyLowerChar a = pyLowerChar b → P a = P b) :
    ∀ l1 l2 : List Char, l1.map pyLowerChar = l2.map pyLowerChar →
      (l1.dropWhile P).map pyLowerChar = (l2.dropWhile P).map pyLowerChar := by
  intro l1
  induction l1 with
  | nil =>
    intro l2 h
    cases l2 with
    | nil => rfl
    | cons y ys => simp at h
  | cons x xs ih =>
    intro l2 h
    cases l2 with
    | nil => simp at h
    | cons y ys =>
      simp only [List.map_cons, List.cons.injEq] at h
      rw [List.dropWhile_cons, List.dropWhile_cons, hP x y h.1]
      by_cases hy : P y
      · rw [if_pos hy, if_pos hy]
        exact ih ys h.2
      · rw [if_neg hy, if_neg hy]
        simp [List.map_cons, h.1, h.2]

/-- Splitting at a stable character commutes with lowercase collapse. -/
theorem splitAtChar_stable {x : Char}
    (hx : ∀ a b, pyLowerChar a = pyLowerChar b → (a == x) = (b == x)) :
    ∀ l1 l2 : List Char, l1.map pyLowerChar = l2.map pyLowerChar →
      (splitAtChar x l1 = none ∧ splitAtChar x l2 = none) ∨
      (∃ a1 b1 a2 b2, splitAtChar x l1 = some (a1, b1) ∧ splitAtChar x l2 = some (a2, b2)
        ∧ a1.map pyLowerChar = a2.map pyLowerChar ∧ b1.map pyLowerChar = b2.map pyLowerChar) := by
  intro l1
  induction l1 with
  | nil =>
    intro l2 h
    cases l2 with
    | nil => exact Or.inl ⟨rfl, rfl⟩
    | cons y ys => simp at h
  | cons c cs ih =>
    intro l2 h
    cases l2 with
    | nil => simp at h
    | cons y ys =>
      simp only [List.map_cons, List.cons.injEq] at h
      by_cases hc : c == x
      · have hy : (y == x) = true := by rw [← hx c y h.1]; exact hc
        refine Or.inr ⟨[], cs, [], ys, ?_, ?_, rfl, h.2⟩
        · simp [splitAtChar, hc]
        · simp [splitAtChar, hy]
      · have hy : (y == x) = false := by rw [← hx c y h.1]; simpa using hc
        rcases ih ys h.2 with ⟨hn1, hn2⟩ | ⟨a1, b1, a2, b2, hs1, hs2, hm1, hm2⟩
        · refine Or.inl ⟨?_, ?_⟩
          · simp [splitAtChar, hc, hn1]
          · simp [splitAtChar, hy, hn2]
        · refine Or.inr ⟨c :: a1, b1, y :: a2, b2, ?_, ?_, ?_, hm2⟩
          · simp [splitAtChar, hc, hs1]
          · simp [splitAtChar, hy, hs2]
          · simp [List.map_cons, h.1, hm1]

/-- Splitting at the last stable character commutes with lowercase
collapse. -/
theorem splitAtLastChar_stable {x : Char}
    (hx : ∀ a b, pyLowerChar a = pyLowerChar b → (a == x) = (b == x)) :
    ∀ l1 l2 : List Char, l1.map pyLowerChar = l2.map pyLowerChar →
      (splitAtLastChar x l1 = none ∧ splitAtLastChar x l2 = none) ∨
      (∃ a1 b1 a2 b2, splitAtLastChar x l1 = some (a1, b1)
        ∧ splitAtLastChar x l2 = some (a2, b2)
        ∧ a1.map pyLowerChar = a2.map pyLowerChar ∧ b1.map pyLowerChar = b2.map pyLowerChar) := by
  intro l1
  induction l1 with
  | nil =>
    intro l2 h
    cases l2 with
    | nil => exact Or.inl ⟨rfl, rfl⟩
    | cons y ys => simp at h
  | cons c cs ih =>
    intro l2 h
    cases l2 with
    | nil => simp at h
    | cons y ys =>
      simp only [List.map_cons, List.cons.injEq] at h
      rcases ih ys h.2 with ⟨hn1, hn2⟩ | ⟨a1, b1, a2, b2, hs1, hs2, hm1, hm2⟩
      · by_cases hc : c == x
        · have hy : (y == x) = true := by rw [← hx c y h.1]; exact hc
          refine Or.inr ⟨[], cs, [], ys, ?_, ?_, rfl, h.2⟩
          · simp [splitAtLastChar, hn1, hc]
          · simp [splitAtLastChar, hn2, hy]
        · have hy : (y == x) = false := by rw [← hx c y h.1]; simpa using hc
          refine Or.inl ⟨?_, ?_⟩
          · simp [splitAtLastChar, hn1, hc]
          · simp [splitAtLastChar, hn2, hy]
      · refine Or.inr ⟨c :: a1, b1, y :: a2, b2, ?_, ?_, ?_, hm2⟩
        · simp [splitAtLastChar, hs1]
        · simp [splitAtLastChar, hs2]
        · simp [List.map_cons, h.1, hm1]

/-- The email regex accepts two strings with the same lowercase form
identically. -/
theorem emailMatch_stable {s1 s2 : String} (h : pyLower s1 = pyLower s2) :
    emailMatch s1 = emailMatch s2 := by
  have hm := pyLower_eq_iff.mp h
  unfold emailMatch
  rcases splitAtChar_stable atSign_stable _ _ hm with ⟨h1, h2⟩ |
    ⟨a1, b1, a2, b2, hs1, hs2, hma, hmb⟩
  · rw [h1, h2]
  · simp only [hs1, hs2]
    rw [isEmpty_stable hma, all_stable localChar_stable _ _ hma]
    rcases splitAtLastChar_stable dot_stable _ _ hmb with ⟨hd1, hd2⟩ |
      ⟨d1, t1, d2, t2, hds1, hds2, hmd, hmt⟩
    · simp only [hd1, hd2]
    · simp only [hds1, hds2]
      rw [isEmpty_stable hmd, all_stable domainChar_stable _ _ hmd,
        all_stable letterChar_stable _ _ hmt, mapped_length hmt]

/-- Stripping preserves equal lowercase forms. -/
theorem pyStrip_lower_stable {s1 s2 : String} (h : pyLower s1 = pyLower s2) :
    pyLower (pyStrip s1) = pyLower (pyStrip s2) := by
  have hm := pyLower_eq_iff.mp h
  apply pyLower_eq_iff.mpr
  unfold pyStrip
  simp only
  have h1 := dropWhile_stable spaceChar_stable _ _ hm
  have h2 : (s1.data.dropWhile isSpaceChar).reverse.map pyLowerChar =
      (s2.data.dropWhile isSpaceChar).reverse.map pyLowerChar := by
    simp only [List.map_reverse, h1]
  have h3 := dropWhile_stable spaceChar_stable _ _ h2
  simp only [List.map_reverse, h3]

/-- A string equals the empty string exactly when its character list is
empty. -/
theorem string_eq_empty_iff (s : String) : s = "" ↔ s.data = [] := by
  constructor
  · intro hc
    rw [hc]
  · intro hc
    cases s with
    | mk l =>
      cases hc
      rfl

/-- Emptiness testing is stable under equal lowercase forms. -/
theorem strEmpty_stable {s1 s2 : String} (h : pyLower s1 = pyLower s2) :
    (s1 == "") = (s2 == "") := by
  have hm := pyLower_eq_iff.mp h
  have h1 : (s1.data = []) ↔ (s2.data = []) := by
    constructor
    · intro hc
      have h2 : s2.data.map pyLowerChar = [] := by rw [← hm, hc]; rfl
      exact List.map_eq_nil_iff.mp h2
    · intro hc
      have h2 : s1.data.map pyLowerChar = [] := by rw [hm, hc]; rfl
      exact List.map_eq_nil_iff.mp h2
  rw [Bool.eq_iff_iff]
  simp only [beq_iff_eq]
  rw [string_eq_empty_iff, string_eq_empty_iff]
  exact h1

/-- Nonemptiness testing is stable under equal lowercase forms. -/
theorem strNe_stable {s1 s2 : String} (h : pyLower s1 = pyLower s2) :
    (s1 != "") = (s2 != "") := by
  simp [bne, strEmpty_stable h]

/-- Blank-after-strip testing is stable under equal lowercase forms. -/
theorem stripEmpty_stable {s1 s2 : String} (h : pyLower s1 = pyLower s2) :
    (pyStrip s1 == "") = (pyStrip s2 == "") :=
  strEmpty_stable (pyStrip_lower_stable h)

/-- C4.  Case variants of an email are one identity: the customer create
handler responds identically to two email strings with the same lowercase
form; any record whose email has a case variant already stored is rejected
with 409 on create, and on update when the variant belongs to another
customer; every accepted create and every accepted email update stores the
lowercased email; and the operator email lookup returns the same row for
case variants. -/
theorem email_case_insensitivity :
    (∀ (db : List Customer) (nv pv : Value) (e1 e2 : String), pyLower e1 = pyLower e2 →
        create_customer db [("name", nv), ("email", .str e1), ("phone", pv)] =
          create_customer db [("name", nv), ("email", .str e2), ("phone", pv)])
    ∧ (∀ (db : List Customer) (d : Record) (es : String),
        d.isEmpty = false → customerMissing d = [] → customerEmpty d = [] →
        getV d "email" = .str es → emailMatch es = true →
        (∃ c ∈ db, pyLower c.email = pyLower es) →
        (create_customer db d).1 = .err 409 "EMAIL_ALREADY_EXISTS")
    ∧ (∀ (db : List Customer) (d : Record) (c : Customer) (db2 : List Customer) (es : String),
        create_customer db d = (.ok c, db2) → getV d "email" = .str es →
        c.email = pyLower es)
    ∧ (∀ (db : List Customer) (cid e1 e2 : String), pyLower e1 = pyLower e2 →
        update_customer db cid [("email", .str e1)] =
          update_customer db cid [("email", .str e2)])
    ∧ (∀ (db : List Customer) (cid : String) (d : Record) (c0 : Customer) (s : String),
        db.find? (fun c => c.id == cid) = some c0 → d.isEmpty = false →
        List.lookup "email" d = some (.str s) → truthy (Value.str s) = true →
        (pyStrip s == "") = false → emailMatch s = true →
        (∃ c ∈ db, pyLower c.email = pyLower s ∧ c.id ≠ cid) →
        update_customer db cid d = (.err 409 "EMAIL_ALREADY_EXISTS_UPDATE", db))
    ∧ (∀ (db : List Customer) (cid : String) (d : Record) (c0 : Customer) (s : String)
        (r : Unit) (c1 : Customer) (db1 : List Customer),
        List.lookup "email" d = some (.str s) →
        update_email_block db cid d c0 = (.ok r, c1, db1) →
        c1.email = pyLower s ∧ db1 = replaceById cid c1 db)
    ∧ (∀ (rows : List OperatorRow) (e1 e2 : String), pyLower e1 = pyLower e2 →
        get_by_email rows e1 = get_by_email rows e2) := by
  refine ⟨?_, ?_, ?_, ?_, ?_, ?_, ?_⟩
  · intro db nv pv e1 e2 h
    have ht : truthy (Value.str e1) = truthy (Value.str e2) := by
      simp only [truthy]
      exact strNe_stable h
    have hse : (pyStrip (pyStrOf (Value.str e1)) == "") =
        (pyStrip (pyStrOf (Value.str e2)) == "") := stripEmpty_stable h
    have hem := emailMatch_stable h
    have hseP : (pyStrip (pyStrOf (Value.str e1)) = "") ↔
        (pyStrip (pyStrOf (Value.str e2)) = "") := by
      have h2 := hse
      rw [Bool.eq_iff_iff] at h2
      simpa using h2
    simp [create_customer, customerMissing, customerEmpty, customerRequired, hasKey, getV,
      List.lookup, newCustomer, ht, hse, hseP, hem, h]
  · intro db d es hne hm he hes hfmt hdup
    have hfind : (db.find? (fun c => pyLower c.email == pyLower es)).isSome = true := by
      rw [List.find?_isSome]
      obtain ⟨c, hc1, hc2⟩ := hdup
      exact ⟨c, hc1, by simp [hc2]⟩
    simp [create_customer, hne, hm, he, hes, hfmt, hfind]
  · intro db d c db2 es h hes
    obtain ⟨ns, es2, phs, _, hes2, _, hc, _⟩ := create_customer_ok_inv h
    rw [hes] at hes2
    injection hes2 with hes2
    rw [hc, ← hes2]
    rfl
  · intro db cid e1 e2 h
    have ht : truthy (Value.str e1) = truthy (Value.str e2) := by
      simp only [truthy]
      exact strNe_stable h
    have hst : (pyStrip e1 == "") = (pyStrip e2 == "") := stripEmpty_stable h
    have hem := emailMatch_stable h
    simp [update_customer, update_email_block, update_phone_block, update_name_block,
      List.lookup, ht, hst, hem, h]
  · intro db cid d c0 s hf hne hl ht hst hfmt hdup
    have hfind : (db.find? (fun c => pyLower c.email == pyLower s && c.id != cid)).isSome
        = true := by
      rw [List.find?_isSome]
      obtain ⟨c, hc1, hc2, hc3⟩ := hdup
      exact ⟨c, hc1, by simp [hc2, hc3]⟩
    simp [update_customer, update_email_block, hf, hne, hl, ht, hst, hfmt, hfind]
  · intro db cid d c0 s r c1 db1 hl h
    unfold update_email_block at h
    rw [hl] at h
    repeat' split at h
    all_goals simp only [Prod.mk.injEq] at h
    all_goals first
      | exact absurd h.1 (fun hc => HResult.noConfusion hc)
      | simp_all
    all_goals (obtain ⟨h1, h2⟩ := h; subst h1; subst h2; exact ⟨rfl, rfl⟩)
  · intro rows e1 e2 h
    unfold get_by_email
    rw [strEmpty_stable h, h]

/-- Witness for C4: the create handler treats `Foo@Bar.COM` and
`foo@bar.com` identically; a create whose email is a case variant of the
stored `john@example.com` is a 409; an accepted create stores the lowercase
form; and the operator lookup agrees on case variants. -/
theorem email_case_insensitivity_witness :
    create_customer [] [("name", Value.str "A"), ("email", Value.str "Foo@Bar.COM"),
        ("phone", Value.str "+1234567890")] =
      create_customer [] [("name", Value.str "A"), ("email", Value.str "foo@bar.com"),
        ("phone", Value.str "+1234567890")]
    ∧ (create_customer [⟨"CUST-001", "John", "john@example.com", "+1234567890"⟩]
        [("name", Value.str "A"), ("email", Value.str "John@Example.COM"),
         ("phone", Value.str "+1234567890")]).1 = .err 409 "EMAIL_ALREADY_EXISTS"
    ∧ (newCustomer [] "A" "Foo@Bar.COM" "+1234567890").email = pyLower "Foo@Bar.COM"
    ∧ get_by_email [⟨"op1", "ops@example.com"⟩] "OPS@example.com" =
        get_by_email [⟨"op1", "ops@example.com"⟩] "ops@example.COM" :=
  ⟨email_case_insensitivity.1 [] (Value.str "A") (Value.str "+1234567890")
      "Foo@Bar.COM" "foo@bar.com" (by decide),
   email_case_insensitivity.2.1 [⟨"CUST-001", "John", "john@example.com", "+1234567890"⟩]
      [("name", Value.str "A"), ("email", Value.str "John@Example.COM"),
       ("phone", Value.str "+1234567890")] "John@Example.COM"
      (by decide) (by decide) (by decide) (by decide) (by decide) (by decide),
   email_case_insensitivity.2.2.1 [] [("name", Value.str "A"),
      ("email", Value.str "Foo@Bar.COM"), ("phone", Value.str "+1234567890")]
      (newCustomer [] "A" "Foo@Bar.COM" "+1234567890")
      [newCustomer [] "A" "Foo@Bar.COM" "+1234567890"] "Foo@Bar.COM" (by decide) (by decide),
   email_case_insensitivity.2.2.2.2.2.2 [⟨"op1", "ops@example.com"⟩]
      "OPS@example.com" "ops@example.COM" (by decide)⟩
